import Mathlib

/-!
# peertracker.Listener: a shallow embedding of `pkg/common/peertracker/listener.go`

The listener drives a handful of collaborators (the raw `net.Listener`, the
caller extractors, the `PeerTracker`, the logger, the accepted connections).
They are modelled as a deterministic world: every call takes the current world
state `σ` and yields its Go results together with the next world state.  Each
call the listener makes is also recorded, with its results, as an `Event`.
The events of one pass through the body of the `for` loop of `Accept` form one
block; a run of `Accept` yields the list of its blocks.
-/

set_option linter.dupNamespace false

namespace Peertracker

/-- Severity of a log entry; `Warn` is the only one used by the listener. -/
inductive Level where
  | warnLevel
  | otherLevel
  deriving DecidableEq

/-- One entry handed to the logger: `log.WithError(err).Warn(msg)` yields
`⟨Level.warnLevel, err, msg⟩`. -/
structure LogEntry (Err : Type) where
  level : Level
  withError : Err
  message : String
  deriving DecidableEq

/-- The literal `AuthInfo{Caller: caller, Watcher: watcher}`. -/
structure AuthInfo (CallerInfo Watcher : Type) where
  Caller : CallerInfo
  Watcher : Watcher
  deriving DecidableEq

/-- The literal `&Conn{Conn: conn, Info: AuthInfo{...}}`. -/
structure Conn (RawConn CallerInfo Watcher : Type) where
  Conn : RawConn
  Info : AuthInfo CallerInfo Watcher
  deriving DecidableEq

/-- The `net.Conn` value returned by `Listener.Accept`: either whatever the raw
listener returned (possibly nil), or a wrapped `*Conn`. -/
inductive NetConn (RawConn CallerInfo Watcher : Type) where
  | raw (c : Option RawConn)
  | wrapped (w : Conn RawConn CallerInfo Watcher)
  deriving DecidableEq

/-- The collaborators of a `Listener`, as functions on the world state `σ`.
Go result pairs `(v, err)` are kept as pairs; `none` is the nil error.
`errUnsupportedTransport` and `zeroCaller` stand for the package variable
`ErrUnsupportedTransport` and the zero value of `CallerInfo`, both declared
outside this file. -/
structure Env (σ RawConn Err CallerInfo Watcher : Type) where
  /-- The call `l.l.Accept()`. -/
  rawAccept : σ → (Option RawConn × Option Err) × σ
  /-- The call `conn.RemoteAddr().Network()`. -/
  network : RawConn → σ → String × σ
  /-- The call `CallerFromUDSConn(conn)`. -/
  callerFromUDSConn : RawConn → σ → (CallerInfo × Option Err) × σ
  /-- The call `CallerFromTCPConn(conn)`. -/
  callerFromTCPConn : RawConn → σ → (CallerInfo × Option Err) × σ
  /-- The call `l.Tracker.NewWatcher(caller)`. -/
  newWatcher : CallerInfo → σ → (Watcher × Option Err) × σ
  /-- The call `l.log.WithError(err).Warn(msg)`. -/
  log : LogEntry Err → σ → σ
  /-- The call `conn.Close()`. -/
  connClose : RawConn → σ → Option Err × σ
  /-- The call `l.Tracker.Close()`. -/
  trackerClose : σ → σ
  /-- The call `l.l.Close()`. -/
  rawClose : σ → Option Err × σ
  errUnsupportedTransport : Err
  zeroCaller : CallerInfo

/-- A call made by the listener, with the results it got back. -/
inductive Event (RawConn Err CallerInfo Watcher : Type) where
  | rawAccept (conn : Option RawConn) (err : Option Err)
  | network (c : RawConn) (net : String)
  | callerFromUDSConn (c : RawConn) (caller : CallerInfo) (err : Option Err)
  | callerFromTCPConn (c : RawConn) (caller : CallerInfo) (err : Option Err)
  | newWatcher (caller : CallerInfo) (w : Watcher) (err : Option Err)
  | log (entry : LogEntry Err)
  | connClose (c : RawConn)
  | trackerClose
  | rawClose (err : Option Err)
  deriving DecidableEq

/-- How one pass through the loop body of `Accept` ends. -/
inductive Step (RawConn Err CallerInfo Watcher : Type) where
  /-- A `continue` statement: the loop goes round again. -/
  | continue
  /-- A `return` statement with its two results. -/
  | ret (conn : NetConn RawConn CallerInfo Watcher) (err : Option Err)
  /-- The raw listener returned a nil connection with a nil error, and
  `conn.RemoteAddr()` dereferenced it. -/
  | crashed
  deriving DecidableEq

/-- How a run of `Accept` ends (when it ends). -/
inductive Outcome (RawConn Err CallerInfo Watcher : Type) where
  | returned (conn : NetConn RawConn CallerInfo Watcher) (err : Option Err)
  | crashed
  deriving DecidableEq

section Model

variable {σ RawConn Err CallerInfo Watcher : Type}

/-- The entry logged on both discard paths of `Accept` (lines 116 and 123). -/
def discardEntry (err : Err) : LogEntry Err :=
  ⟨Level.warnLevel, err, "Connection failed during accept"⟩

/-- The `switch conn.RemoteAddr().Network()` of `Accept` (lines 106-113), run
after `var caller CallerInfo`: the results `(caller, err)`, the next world
state and the events. -/
def extractCaller (env : Env σ RawConn Err CallerInfo Watcher) (c : RawConn) (s : σ) :
    (CallerInfo × Option Err) × σ × List (Event RawConn Err CallerInfo Watcher) :=
  let (net, s1) := env.network c s
  if net = "unix" then
    let (r, s2) := env.callerFromUDSConn c s1
    (r, s2, [Event.network c net, Event.callerFromUDSConn c r.1 r.2])
  else if net = "tcp" then
    let (r, s2) := env.callerFromTCPConn c s1
    (r, s2, [Event.network c net, Event.callerFromTCPConn c r.1 r.2])
  else
    ((env.zeroCaller, some env.errUnsupportedTransport), s1, [Event.network c net])

/-- The three statements of a discard path: log the warning, close the
connection (its result is dropped), `continue`. -/
def discard (env : Env σ RawConn Err CallerInfo Watcher) (c : RawConn) (e : Err) (s : σ) :
    σ × List (Event RawConn Err CallerInfo Watcher) :=
  let s1 := env.log (discardEntry e) s
  let (_, s2) := env.connClose c s1
  (s2, [Event.log (discardEntry e), Event.connClose c])

/-- One pass through the body of the `for` loop of `Listener.Accept`. -/
def acceptIter (env : Env σ RawConn Err CallerInfo Watcher) (s : σ) :
    Step RawConn Err CallerInfo Watcher × σ × List (Event RawConn Err CallerInfo Watcher) :=
  let (r, s1) := env.rawAccept s
  match r.2 with
  | some e => (Step.ret (NetConn.raw r.1) (some e), s1, [Event.rawAccept r.1 r.2])
  | none =>
    match r.1 with
    | none => (Step.crashed, s1, [Event.rawAccept r.1 r.2])
    | some c =>
      let (x, s2, evx) := extractCaller env c s1
      match x.2 with
      | some e =>
        let (s3, evd) := discard env c e s2
        (Step.continue, s3, Event.rawAccept r.1 r.2 :: (evx ++ evd))
      | none =>
        let (w, s3) := env.newWatcher x.1 s2
        match w.2 with
        | some e =>
          let (s4, evd) := discard env c e s3
          (Step.continue, s4,
            Event.rawAccept r.1 r.2 :: (evx ++ Event.newWatcher x.1 w.1 w.2 :: evd))
        | none =>
          (Step.ret (NetConn.wrapped ⟨c, ⟨x.1, w.1⟩⟩) none, s3,
            Event.rawAccept r.1 r.2 :: (evx ++ [Event.newWatcher x.1 w.1 w.2]))

/-- The result of a finished run: outcome, final world state, blocks. -/
abbrev Run (σ RawConn Err CallerInfo Watcher : Type) :=
  Outcome RawConn Err CallerInfo Watcher × σ × List (List (Event RawConn Err CallerInfo Watcher))

/-- Put the block of an earlier pass in front of the blocks of a run. -/
def pushBlock (b : List (Event RawConn Err CallerInfo Watcher))
    (r : Run σ RawConn Err CallerInfo Watcher) : Run σ RawConn Err CallerInfo Watcher :=
  (r.1, r.2.1, b :: r.2.2)

/-- The function `Listener.Accept`: the `for` loop, bounded by `fuel` passes.
`none` means the loop is still running after `fuel` passes. -/
def Accept (env : Env σ RawConn Err CallerInfo Watcher) :
    Nat → σ → Option (Run σ RawConn Err CallerInfo Watcher)
  | 0, _ => none
  | fuel + 1, s =>
    match acceptIter env s with
    | (Step.continue, s1, b) => (Accept env fuel s1).map (pushBlock b)
    | (Step.ret conn err, s1, b) => some (Outcome.returned conn err, s1, [b])
    | (Step.crashed, s1, b) => some (Outcome.crashed, s1, [b])

/-- The function `Listener.Close`. -/
def Close (env : Env σ RawConn Err CallerInfo Watcher) (s : σ) :
    Option Err × σ × List (Event RawConn Err CallerInfo Watcher) :=
  let s1 := env.trackerClose s
  let (e, s2) := env.rawClose s1
  (e, s2, [Event.trackerClose, Event.rawClose e])

/-- The outcome of a pass that left the loop. -/
def Step.outcome : Step RawConn Err CallerInfo Watcher → Option (Outcome RawConn Err CallerInfo Watcher)
  | Step.continue => none
  | Step.ret conn err => some (Outcome.returned conn err)
  | Step.crashed => some Outcome.crashed

/-- The first `k` passes of the loop, provided each of them ends in `continue`:
the world state before pass `k` and the blocks of the `k` passes. -/
def discardRun (env : Env σ RawConn Err CallerInfo Watcher) :
    Nat → σ → Option (σ × List (List (Event RawConn Err CallerInfo Watcher)))
  | 0, s => some (s, [])
  | k + 1, s =>
    match acceptIter env s with
    | (Step.continue, s1, b) => (discardRun env k s1).map fun r => (r.1, b :: r.2)
    | _ => none

/-! ### Reading a block -/

/-- Results of the raw listener `Accept` calls of a block. -/
def rawAccepts (b : List (Event RawConn Err CallerInfo Watcher)) :
    List (Option RawConn × Option Err) :=
  b.filterMap fun ev => match ev with
    | Event.rawAccept c e => some (c, e)
    | _ => none

/-- Connections obtained from successful raw `Accept` calls of a block. -/
def acceptedConns (b : List (Event RawConn Err CallerInfo Watcher)) : List RawConn :=
  b.filterMap fun ev => match ev with
    | Event.rawAccept (some c) none => some c
    | _ => none

/-- Connections closed in a block. -/
def closedConns (b : List (Event RawConn Err CallerInfo Watcher)) : List RawConn :=
  b.filterMap fun ev => match ev with
    | Event.connClose c => some c
    | _ => none

/-- The `Tracker.NewWatcher` calls of a block: argument and both results. -/
def watcherCalls (b : List (Event RawConn Err CallerInfo Watcher)) :
    List (CallerInfo × Watcher × Option Err) :=
  b.filterMap fun ev => match ev with
    | Event.newWatcher caller w e => some (caller, w, e)
    | _ => none

/-- Entries handed to the logger in a block. -/
def logged (b : List (Event RawConn Err CallerInfo Watcher)) : List (LogEntry Err) :=
  b.filterMap fun ev => match ev with
    | Event.log entry => some entry
    | _ => none

/-- Number of `Tracker.Close` calls among the events. -/
def trackerCloses (b : List (Event RawConn Err CallerInfo Watcher)) : Nat :=
  b.countP fun ev => match ev with
    | Event.trackerClose => true
    | _ => false

/-- Results of the raw listener `Close` calls among the events. -/
def rawCloses (b : List (Event RawConn Err CallerInfo Watcher)) : List (Option Err) :=
  b.filterMap fun ev => match ev with
    | Event.rawClose e => some e
    | _ => none

/-- The watchers created in a block: the `NewWatcher` calls that returned a
nil error, with the caller each was created for. -/
def createdWatchers (b : List (Event RawConn Err CallerInfo Watcher)) :
    List (CallerInfo × Watcher) :=
  (watcherCalls b).filterMap fun x => match x.2.2 with
    | none => some (x.1, x.2.1)
    | some _ => none

/-- The raw connection handed to the caller of `Accept` inside a wrapped
`Conn`, if the run ended that way. -/
def Outcome.wrappedConns : Outcome RawConn Err CallerInfo Watcher → List RawConn
  | Outcome.returned (NetConn.wrapped w) _ => [w.Conn]
  | _ => []

/-- The caller and watcher attached to the `Conn` handed to the caller of
`Accept`, if the run ended that way. -/
def Outcome.attached : Outcome RawConn Err CallerInfo Watcher → List (CallerInfo × Watcher)
  | Outcome.returned (NetConn.wrapped w) _ => [(w.Info.Caller, w.Info.Watcher)]
  | _ => []

/-- The two caller extractors. -/
inductive Extractor where
  | uds
  | tcp
  deriving DecidableEq

/-- The extractor calls of a block: which extractor, on which connection, and
both results. -/
def extractorCalls (b : List (Event RawConn Err CallerInfo Watcher)) :
    List (Extractor × RawConn × CallerInfo × Option Err) :=
  b.filterMap fun ev => match ev with
    | Event.callerFromUDSConn c caller e => some (Extractor.uds, c, caller, e)
    | Event.callerFromTCPConn c caller e => some (Extractor.tcp, c, caller, e)
    | _ => none

/-- The step of `Accept` at which a connection can be discarded. -/
inductive FailedStep where
  | callerExtraction
  | watcherCreation
  deriving DecidableEq

/-- The step that failed in a block, read off the calls made: a block that
closes a connection discarded it in caller extraction when `NewWatcher` was
never reached, and in watcher creation otherwise. -/
def failedStep (b : List (Event RawConn Err CallerInfo Watcher)) : Option FailedStep :=
  match closedConns b, watcherCalls b with
  | [], _ => none
  | _ :: _, [] => some FailedStep.callerExtraction
  | _ :: _, _ :: _ => some FailedStep.watcherCreation

/-- A block of a pass that discarded its connection: one successful raw
`Accept` first, the close of that same connection last, one warning, at most
one `NewWatcher` call and none that succeeded. -/
def DiscardedBlock (b : List (Event RawConn Err CallerInfo Watcher)) : Prop :=
  ∃ c, b.head? = some (Event.rawAccept (some c) none) ∧
    b.getLast? = some (Event.connClose c) ∧
    rawAccepts b = [(some c, none)] ∧ closedConns b = [c] ∧
    (watcherCalls b).length ≤ 1 ∧ (∀ x ∈ watcherCalls b, x.2.2 ≠ none) ∧
    (logged b).length = 1

end Model

/-! ### Listener construction -/

/-- The `net.Listener` held by a `Listener`: a `*net.UnixListener` or a
`*net.TCPListener`. -/
inductive RawListener (UL TL : Type) where
  | unix (l : UL)
  | tcp (l : TL)
  deriving DecidableEq

/-- The struct `Listener`. -/
structure Listener (UL TL Lg Trk : Type) where
  l : RawListener UL TL
  log : Lg
  Tracker : Trk
  deriving DecidableEq

/-- The struct `ListenerFactory`, its function fields acting on the world
state `σ`. -/
structure ListenerFactory (σ UL TL Lg Trk UAddr TAddr Err : Type) where
  Log : Lg
  NewTracker : Lg → σ → (Trk × Option Err) × σ
  NewUnixListener : String → UAddr → σ → (UL × Option Err) × σ
  NewTCPListener : String → TAddr → σ → (TL × Option Err) × σ

/-- A call made while constructing a listener, with its results. -/
inductive FactoryEvent (UL TL Lg Trk UAddr TAddr Err : Type) where
  | newUnixListener (network : String) (laddr : UAddr) (l : UL) (err : Option Err)
  | newTCPListener (network : String) (laddr : TAddr) (l : TL) (err : Option Err)
  | newTracker (log : Lg) (t : Trk) (err : Option Err)
  | unixClose (l : UL)
  | tcpClose (l : TL)
  deriving DecidableEq

section Factory

variable {σ UL TL Lg Trk UAddr TAddr Err : Type}

/-- The function `ListenerFactory.listenUnix`; `unixClose` is the method
`(*net.UnixListener).Close`. -/
def listenUnix (lf : ListenerFactory σ UL TL Lg Trk UAddr TAddr Err)
    (unixClose : UL → σ → Option Err × σ) (network : String) (laddr : UAddr) (s : σ) :
    (Option (Listener UL TL Lg Trk) × Option Err) × σ ×
      List (FactoryEvent UL TL Lg Trk UAddr TAddr Err) :=
  let (r, s1) := lf.NewUnixListener network laddr s
  match r.2 with
  | some e => ((none, some e), s1, [FactoryEvent.newUnixListener network laddr r.1 r.2])
  | none =>
    let (t, s2) := lf.NewTracker lf.Log s1
    match t.2 with
    | some e =>
      let (_, s3) := unixClose r.1 s2
      ((none, some e), s3,
        [FactoryEvent.newUnixListener network laddr r.1 r.2,
         FactoryEvent.newTracker lf.Log t.1 t.2, FactoryEvent.unixClose r.1])
    | none =>
      ((some ⟨RawListener.unix r.1, lf.Log, t.1⟩, none), s2,
        [FactoryEvent.newUnixListener network laddr r.1 r.2,
         FactoryEvent.newTracker lf.Log t.1 t.2])

/-- The function `ListenerFactory.listenTCP`; `tcpClose` is the method
`(*net.TCPListener).Close`. -/
def listenTCP (lf : ListenerFactory σ UL TL Lg Trk UAddr TAddr Err)
    (tcpClose : TL → σ → Option Err × σ) (network : String) (laddr : TAddr) (s : σ) :
    (Option (Listener UL TL Lg Trk) × Option Err) × σ ×
      List (FactoryEvent UL TL Lg Trk UAddr TAddr Err) :=
  let (r, s1) := lf.NewTCPListener network laddr s
  match r.2 with
  | some e => ((none, some e), s1, [FactoryEvent.newTCPListener network laddr r.1 r.2])
  | none =>
    let (t, s2) := lf.NewTracker lf.Log s1
    match t.2 with
    | some e =>
      let (_, s3) := tcpClose r.1 s2
      ((none, some e), s3,
        [FactoryEvent.newTCPListener network laddr r.1 r.2,
         FactoryEvent.newTracker lf.Log t.1 t.2, FactoryEvent.tcpClose r.1])
    | none =>
      ((some ⟨RawListener.tcp r.1, lf.Log, t.1⟩, none), s2,
        [FactoryEvent.newTCPListener network laddr r.1 r.2,
         FactoryEvent.newTracker lf.Log t.1 t.2])

/-- The `NewTracker` calls among the events of a construction. -/
def trackerCalls (evs : List (FactoryEvent UL TL Lg Trk UAddr TAddr Err)) :
    List (Lg × Trk × Option Err) :=
  evs.filterMap fun ev => match ev with
    | FactoryEvent.newTracker lg t e => some (lg, t, e)
    | _ => none

/-- The raw listeners closed among the events of a construction. -/
def closedListeners (evs : List (FactoryEvent UL TL Lg Trk UAddr TAddr Err)) :
    List (RawListener UL TL) :=
  evs.filterMap fun ev => match ev with
    | FactoryEvent.unixClose l => some (RawListener.unix l)
    | FactoryEvent.tcpClose l => some (RawListener.tcp l)
    | _ => none

end Factory

/-! ### Concrete worlds

The world state is the number of raw `Accept` calls made so far; connections,
callers and watchers are numbers, errors are strings. -/

/-- A world whose raw listener hands out connections `0, 1, ..., limit - 1`
and then fails.  Connection `0` comes from a `udp` peer, `1` from a `unix`
peer whose credentials cannot be read, `2` from a `tcp` peer whose watcher
cannot be created; every later connection is a healthy `unix` peer. -/
def demoEnv (limit : Nat) : Env Nat Nat String Nat Nat where
  rawAccept := fun s =>
    if s < limit then ((some s, none), s + 1) else ((none, some "use of closed listener"), s + 1)
  network := fun c s =>
    (if c = 0 then "udp" else if c = 2 then "tcp" else "unix", s)
  callerFromUDSConn := fun c s => ((100 + c, if c = 1 then some "denied" else none), s)
  callerFromTCPConn := fun c s => ((200 + c, none), s)
  newWatcher := fun caller s => ((1000 + caller, if caller = 202 then some "denied" else none), s)
  log := fun _ s => s
  connClose := fun _ s => (none, s)
  trackerClose := fun s => s
  rawClose := fun s => (if s = 0 then none else some "close failed", s + 1)
  errUnsupportedTransport := "unsupported transport"
  zeroCaller := 0

/-- Binding a raw listener in the concrete world: the network `"bad"` cannot
be bound; the listener handed back is `laddr + shift`. -/
def demoBind (shift : Nat) (network : String) (laddr s : Nat) : (Nat × Option String) × Nat :=
  ((laddr + shift, if network = "bad" then some "bind failed" else none), s + 1)

/-- A factory over the same kind of world: binding to the network `"bad"`
fails, and the tracker can only be created in world state `1`. -/
def demoFactory : ListenerFactory Nat Nat Nat String Nat Nat Nat String where
  Log := "logger"
  NewTracker := fun _ s => ((7, if s = 1 then none else some "no tracker"), s + 1)
  NewUnixListener := demoBind 0
  NewTCPListener := demoBind 1

/-- Closing a raw listener in the concrete world. -/
def demoClose : Nat → Nat → Option String × Nat :=
  fun _ s => (none, s + 1)

/-- The block of connection `0` (a `udp` peer) in the concrete world. -/
def demoBlock0 : List (Event Nat String Nat Nat) :=
  [Event.rawAccept (some 0) none, Event.network 0 "udp",
   Event.log (discardEntry "unsupported transport"), Event.connClose 0]

/-- The block of connection `1` (credentials cannot be read). -/
def demoBlock1 : List (Event Nat String Nat Nat) :=
  [Event.rawAccept (some 1) none, Event.network 1 "unix",
   Event.callerFromUDSConn 1 101 (some "denied"),
   Event.log (discardEntry "denied"), Event.connClose 1]

/-- The block of connection `2` (the watcher cannot be created). -/
def demoBlock2 : List (Event Nat String Nat Nat) :=
  [Event.rawAccept (some 2) none, Event.network 2 "tcp",
   Event.callerFromTCPConn 2 202 none, Event.newWatcher 202 1202 (some "denied"),
   Event.log (discardEntry "denied"), Event.connClose 2]

/-- The block of connection `3` (a healthy `unix` peer). -/
def demoBlock3 : List (Event Nat String Nat Nat) :=
  [Event.rawAccept (some 3) none, Event.network 3 "unix",
   Event.callerFromUDSConn 3 103 none, Event.newWatcher 103 1103 none]

/-! ### One pass of the loop -/

section Lemmas

variable {σ RawConn Err CallerInfo Watcher : Type}

theorem extractCaller_unix (env : Env σ RawConn Err CallerInfo Watcher) (c : RawConn)
    (s s1 : σ) (hn : env.network c s = ("unix", s1)) :
    extractCaller env c s =
      ((env.callerFromUDSConn c s1).1, (env.callerFromUDSConn c s1).2,
        [Event.network c "unix",
         Event.callerFromUDSConn c (env.callerFromUDSConn c s1).1.1
           (env.callerFromUDSConn c s1).1.2]) := by
  simp [extractCaller, hn]

theorem extractCaller_tcp (env : Env σ RawConn Err CallerInfo Watcher) (c : RawConn)
    (s s1 : σ) (hn : env.network c s = ("tcp", s1)) :
    extractCaller env c s =
      ((env.callerFromTCPConn c s1).1, (env.callerFromTCPConn c s1).2,
        [Event.network c "tcp",
         Event.callerFromTCPConn c (env.callerFromTCPConn c s1).1.1
           (env.callerFromTCPConn c s1).1.2]) := by
  simp [extractCaller, hn]

theorem extractCaller_other (env : Env σ RawConn Err CallerInfo Watcher) (c : RawConn)
    (s s1 : σ) (net : String) (hn : env.network c s = (net, s1))
    (hu : net ≠ "unix") (ht : net ≠ "tcp") :
    extractCaller env c s =
      ((env.zeroCaller, some env.errUnsupportedTransport), s1, [Event.network c net]) := by
  simp [extractCaller, hn, hu, ht]

/-- The extraction step accepts nothing, closes nothing, logs nothing and does
not touch the tracker. -/
theorem extractCaller_quiet (env : Env σ RawConn Err CallerInfo Watcher) (c : RawConn) (s : σ) :
    rawAccepts (extractCaller env c s).2.2 = [] ∧
    closedConns (extractCaller env c s).2.2 = [] ∧
    watcherCalls (extractCaller env c s).2.2 = [] ∧
    logged (extractCaller env c s).2.2 = [] := by
  rcases hn : env.network c s with ⟨net, s1⟩
  by_cases hu : net = "unix"
  · subst hu
    rw [extractCaller_unix env c s s1 hn]
    simp [rawAccepts, closedConns, watcherCalls, logged]
  · by_cases ht : net = "tcp"
    · subst ht
      rw [extractCaller_tcp env c s s1 hn]
      simp [rawAccepts, closedConns, watcherCalls, logged]
    · rw [extractCaller_other env c s s1 net hn hu ht]
      simp [rawAccepts, closedConns, watcherCalls, logged]

theorem acceptIter_rawError (env : Env σ RawConn Err CallerInfo Watcher) (s s1 : σ)
    (c : Option RawConn) (e : Err) (ha : env.rawAccept s = ((c, some e), s1)) :
    acceptIter env s =
      (Step.ret (NetConn.raw c) (some e), s1, [Event.rawAccept c (some e)]) := by
  simp [acceptIter, ha]

theorem acceptIter_nil (env : Env σ RawConn Err CallerInfo Watcher) (s s1 : σ)
    (ha : env.rawAccept s = ((none, none), s1)) :
    acceptIter env s = (Step.crashed, s1, [Event.rawAccept none none]) := by
  simp [acceptIter, ha]

theorem acceptIter_extractFail (env : Env σ RawConn Err CallerInfo Watcher) (s s1 s2 : σ)
    (c : RawConn) (caller : CallerInfo) (e : Err)
    (evx : List (Event RawConn Err CallerInfo Watcher))
    (ha : env.rawAccept s = ((some c, none), s1))
    (hx : extractCaller env c s1 = ((caller, some e), s2, evx)) :
    acceptIter env s =
      (Step.continue, (env.connClose c (env.log (discardEntry e) s2)).2,
        Event.rawAccept (some c) none ::
          (evx ++ [Event.log (discardEntry e), Event.connClose c])) := by
  simp [acceptIter, ha, hx, discard]

theorem acceptIter_watcherFail (env : Env σ RawConn Err CallerInfo Watcher) (s s1 s2 s3 : σ)
    (c : RawConn) (caller : CallerInfo) (w : Watcher) (e : Err)
    (evx : List (Event RawConn Err CallerInfo Watcher))
    (ha : env.rawAccept s = ((some c, none), s1))
    (hx : extractCaller env c s1 = ((caller, none), s2, evx))
    (hw : env.newWatcher caller s2 = ((w, some e), s3)) :
    acceptIter env s =
      (Step.continue, (env.connClose c (env.log (discardEntry e) s3)).2,
        Event.rawAccept (some c) none ::
          (evx ++ [Event.newWatcher caller w (some e), Event.log (discardEntry e),
            Event.connClose c])) := by
  simp [acceptIter, ha, hx, hw, discard]

theorem acceptIter_ok (env : Env σ RawConn Err CallerInfo Watcher) (s s1 s2 s3 : σ)
    (c : RawConn) (caller : CallerInfo) (w : Watcher)
    (evx : List (Event RawConn Err CallerInfo Watcher))
    (ha : env.rawAccept s = ((some c, none), s1))
    (hx : extractCaller env c s1 = ((caller, none), s2, evx))
    (hw : env.newWatcher caller s2 = ((w, none), s3)) :
    acceptIter env s =
      (Step.ret (NetConn.wrapped ⟨c, ⟨caller, w⟩⟩) none, s3,
        Event.rawAccept (some c) none :: (evx ++ [Event.newWatcher caller w none])) := by
  simp [acceptIter, ha, hx, hw]

/-- Every pass of the loop takes exactly one of the five paths through the
body. -/
theorem acceptIter_cases (env : Env σ RawConn Err CallerInfo Watcher) (s : σ) :
    (∃ c e s1, env.rawAccept s = ((c, some e), s1) ∧
      acceptIter env s =
        (Step.ret (NetConn.raw c) (some e), s1, [Event.rawAccept c (some e)])) ∨
    (∃ s1, env.rawAccept s = ((none, none), s1) ∧
      acceptIter env s = (Step.crashed, s1, [Event.rawAccept none none])) ∨
    (∃ c s1 caller e s2 evx, env.rawAccept s = ((some c, none), s1) ∧
      extractCaller env c s1 = ((caller, some e), s2, evx) ∧
      acceptIter env s =
        (Step.continue, (env.connClose c (env.log (discardEntry e) s2)).2,
          Event.rawAccept (some c) none ::
            (evx ++ [Event.log (discardEntry e), Event.connClose c]))) ∨
    (∃ c s1 caller s2 evx w e s3, env.rawAccept s = ((some c, none), s1) ∧
      extractCaller env c s1 = ((caller, none), s2, evx) ∧
      env.newWatcher caller s2 = ((w, some e), s3) ∧
      acceptIter env s =
        (Step.continue, (env.connClose c (env.log (discardEntry e) s3)).2,
          Event.rawAccept (some c) none ::
            (evx ++ [Event.newWatcher caller w (some e), Event.log (discardEntry e),
              Event.connClose c]))) ∨
    (∃ c s1 caller s2 evx w s3, env.rawAccept s = ((some c, none), s1) ∧
      extractCaller env c s1 = ((caller, none), s2, evx) ∧
      env.newWatcher caller s2 = ((w, none), s3) ∧
      acceptIter env s =
        (Step.ret (NetConn.wrapped ⟨c, ⟨caller, w⟩⟩) none, s3,
          Event.rawAccept (some c) none :: (evx ++ [Event.newWatcher caller w none]))) := by
  rcases ha : env.rawAccept s with ⟨⟨oc, oe⟩, s1⟩
  cases oe with
  | some e => exact Or.inl ⟨oc, e, s1, rfl, acceptIter_rawError env s s1 oc e ha⟩
  | none =>
    cases oc with
    | none => exact Or.inr (Or.inl ⟨s1, rfl, acceptIter_nil env s s1 ha⟩)
    | some c =>
      rcases hx : extractCaller env c s1 with ⟨⟨caller, xe⟩, s2, evx⟩
      cases xe with
      | some e =>
        exact Or.inr (Or.inr (Or.inl ⟨c, s1, caller, e, s2, evx, rfl, hx,
          acceptIter_extractFail env s s1 s2 c caller e evx ha hx⟩))
      | none =>
        rcases hw : env.newWatcher caller s2 with ⟨⟨w, we⟩, s3⟩
        cases we with
        | some e =>
          exact Or.inr (Or.inr (Or.inr (Or.inl ⟨c, s1, caller, s2, evx, w, e, s3, rfl, hx, hw,
            acceptIter_watcherFail env s s1 s2 s3 c caller w e evx ha hx hw⟩)))
        | none =>
          exact Or.inr (Or.inr (Or.inr (Or.inr ⟨c, s1, caller, s2, evx, w, s3, rfl, hx, hw,
            acceptIter_ok env s s1 s2 s3 c caller w evx ha hx hw⟩)))

/-! ### Blocks of discarded connections -/

theorem discardedBlock_extractFail (c : RawConn) (e : Err)
    (evx : List (Event RawConn Err CallerInfo Watcher))
    (hq : rawAccepts evx = [] ∧ closedConns evx = [] ∧ watcherCalls evx = [] ∧ logged evx = []) :
    DiscardedBlock (Event.rawAccept (some c) none ::
      (evx ++ [Event.log (discardEntry e), Event.connClose c])) := by
  obtain ⟨h1, h2, h3, h4⟩ := hq
  simp only [rawAccepts, closedConns, watcherCalls, logged] at h1 h2 h3 h4
  refine ⟨c, rfl, ?_, ?_, ?_, ?_, ?_, ?_⟩
  · simp [List.getLast?_cons, List.getLast?_append]
  · simp [rawAccepts, List.filterMap_append, List.filterMap_cons, h1]
  · simp [closedConns, List.filterMap_append, List.filterMap_cons, h2]
  · simp [watcherCalls, List.filterMap_append, List.filterMap_cons, h3]
  · simp [watcherCalls, List.filterMap_append, List.filterMap_cons, h3]
  · simp [logged, List.filterMap_append, List.filterMap_cons, h4]

theorem discardedBlock_watcherFail (c : RawConn) (caller : CallerInfo) (w : Watcher) (e : Err)
    (evx : List (Event RawConn Err CallerInfo Watcher))
    (hq : rawAccepts evx = [] ∧ closedConns evx = [] ∧ watcherCalls evx = [] ∧ logged evx = []) :
    DiscardedBlock (Event.rawAccept (some c) none ::
      (evx ++ [Event.newWatcher caller w (some e), Event.log (discardEntry e),
        Event.connClose c])) := by
  obtain ⟨h1, h2, h3, h4⟩ := hq
  simp only [rawAccepts, closedConns, watcherCalls, logged] at h1 h2 h3 h4
  refine ⟨c, rfl, ?_, ?_, ?_, ?_, ?_, ?_⟩
  · simp [List.getLast?_cons, List.getLast?_append]
  · simp [rawAccepts, List.filterMap_append, List.filterMap_cons, h1]
  · simp [closedConns, List.filterMap_append, List.filterMap_cons, h2]
  · simp [watcherCalls, List.filterMap_append, List.filterMap_cons, h3]
  · simp [watcherCalls, List.filterMap_append, List.filterMap_cons, h3]
  · simp [logged, List.filterMap_append, List.filterMap_cons, h4]

/-- The events of the extraction step, read back from an equation for it. -/
theorem quiet_of_extractCaller (env : Env σ RawConn Err CallerInfo Watcher) (c : RawConn)
    (s s2 : σ) (x : CallerInfo × Option Err) (evx : List (Event RawConn Err CallerInfo Watcher))
    (hx : extractCaller env c s = (x, s2, evx)) :
    rawAccepts evx = [] ∧ closedConns evx = [] ∧ watcherCalls evx = [] ∧ logged evx = [] := by
  have h := extractCaller_quiet env c s
  rw [hx] at h
  exact h

/-- A pass that ends in `continue` leaves the block of a discarded connection. -/
theorem acceptIter_continue_discarded (env : Env σ RawConn Err CallerInfo Watcher) (s s1 : σ)
    (b : List (Event RawConn Err CallerInfo Watcher))
    (h : acceptIter env s = (Step.continue, s1, b)) : DiscardedBlock b := by
  rcases acceptIter_cases env s with
    ⟨c, e, t1, _, h1⟩ | ⟨t1, _, h1⟩ | ⟨c, t1, caller, e, t2, evx, _, hx, h1⟩ |
    ⟨c, t1, caller, t2, evx, w, e, t3, _, hx, _, h1⟩ | ⟨c, t1, caller, t2, evx, w, t3, _, hx, _, h1⟩
  · rw [h1] at h; simp at h
  · rw [h1] at h; simp at h
  · rw [h1] at h
    injection h with _ h2
    injection h2 with _ h3
    subst h3
    exact discardedBlock_extractFail c e evx (quiet_of_extractCaller env c t1 t2 _ evx hx)
  · rw [h1] at h
    injection h with _ h2
    injection h2 with _ h3
    subst h3
    exact discardedBlock_watcherFail c caller w e evx (quiet_of_extractCaller env c t1 t2 _ evx hx)
  · rw [h1] at h; simp at h

/-! ### Runs of the loop -/

theorem Accept_succ_continue (env : Env σ RawConn Err CallerInfo Watcher) (fuel : Nat) (s s1 : σ)
    (b : List (Event RawConn Err CallerInfo Watcher))
    (h : acceptIter env s = (Step.continue, s1, b)) :
    Accept env (fuel + 1) s = (Accept env fuel s1).map (pushBlock b) := by
  simp [Accept, h]

theorem Accept_succ_ret (env : Env σ RawConn Err CallerInfo Watcher) (fuel : Nat) (s s1 : σ)
    (conn : NetConn RawConn CallerInfo Watcher) (err : Option Err)
    (b : List (Event RawConn Err CallerInfo Watcher))
    (h : acceptIter env s = (Step.ret conn err, s1, b)) :
    Accept env (fuel + 1) s = some (Outcome.returned conn err, s1, [b]) := by
  simp [Accept, h]

theorem Accept_succ_crashed (env : Env σ RawConn Err CallerInfo Watcher) (fuel : Nat) (s s1 : σ)
    (b : List (Event RawConn Err CallerInfo Watcher))
    (h : acceptIter env s = (Step.crashed, s1, b)) :
    Accept env (fuel + 1) s = some (Outcome.crashed, s1, [b]) := by
  simp [Accept, h]

/-- After `k` discarded connections the loop carries on from the state reached,
with the `k` blocks in front of whatever follows. -/
theorem Accept_of_discardRun (env : Env σ RawConn Err CallerInfo Watcher) :
    ∀ (k fuel : Nat) (s sk : σ) (pre : List (List (Event RawConn Err CallerInfo Watcher))),
      discardRun env k s = some (sk, pre) →
      Accept env (k + fuel) s = (Accept env fuel sk).map fun r => (r.1, r.2.1, pre ++ r.2.2) := by
  intro k
  induction k with
  | zero =>
    intro fuel s sk pre h
    simp only [discardRun, Option.some.injEq, Prod.mk.injEq] at h
    obtain ⟨rfl, rfl⟩ := h
    simp
  | succ k ih =>
    intro fuel s sk pre h
    rcases hi : acceptIter env s with ⟨st, s1, b⟩
    cases st with
    | ret conn err => simp [discardRun, hi] at h
    | crashed => simp [discardRun, hi] at h
    | «continue» =>
      simp only [discardRun, hi, Option.map_eq_some', Prod.mk.injEq] at h
      obtain ⟨⟨s2, tr⟩, hd, rfl, rfl⟩ := h
      have e1 : k + 1 + fuel = (k + fuel) + 1 := by omega
      rw [e1, Accept_succ_continue env (k + fuel) s s1 b hi, ih fuel s1 s2 tr hd]
      cases Accept env fuel s2 <;> simp [pushBlock]

/-- A finished run is a number of discarded connections followed by one pass
that leaves the loop. -/
theorem Accept_inv (env : Env σ RawConn Err CallerInfo Watcher) :
    ∀ (fuel : Nat) (s sf : σ) (out : Outcome RawConn Err CallerInfo Watcher)
      (tr : List (List (Event RawConn Err CallerInfo Watcher))),
      Accept env fuel s = some (out, sf, tr) →
      ∃ k sk pre st last, k < fuel ∧ discardRun env k s = some (sk, pre) ∧
        acceptIter env sk = (st, sf, last) ∧ st.outcome = some out ∧ tr = pre ++ [last] := by
  intro fuel
  induction fuel with
  | zero => intro s sf out tr h; simp [Accept] at h
  | succ n ih =>
    intro s sf out tr h
    rcases hi : acceptIter env s with ⟨st, s1, b⟩
    cases st with
    | ret conn err =>
      rw [Accept_succ_ret env n s s1 conn err b hi] at h
      simp only [Option.some.injEq, Prod.mk.injEq] at h
      obtain ⟨rfl, rfl, rfl⟩ := h
      exact ⟨0, s, [], Step.ret conn err, b, Nat.succ_pos n, rfl, hi, rfl, rfl⟩
    | crashed =>
      rw [Accept_succ_crashed env n s s1 b hi] at h
      simp only [Option.some.injEq, Prod.mk.injEq] at h
      obtain ⟨rfl, rfl, rfl⟩ := h
      exact ⟨0, s, [], Step.crashed, b, Nat.succ_pos n, rfl, hi, rfl, rfl⟩
    | «continue» =>
      rw [Accept_succ_continue env n s s1 b hi] at h
      simp only [Option.map_eq_some', pushBlock, Prod.mk.injEq] at h
      obtain ⟨⟨out1, sf1, tr1⟩, hr, rfl, rfl, rfl⟩ := h
      obtain ⟨k, sk, pre, st, last, hk, hd, hl, ho, rfl⟩ := ih s1 sf1 out1 tr1 hr
      refine ⟨k + 1, sk, b :: pre, st, last, Nat.succ_lt_succ hk, ?_, hl, ho, rfl⟩
      simp [discardRun, hi, hd]

/-- Every block of a prefix of discarded connections is the block of a
discarded connection. -/
theorem discardRun_discarded (env : Env σ RawConn Err CallerInfo Watcher) :
    ∀ (k : Nat) (s sk : σ) (pre : List (List (Event RawConn Err CallerInfo Watcher))),
      discardRun env k s = some (sk, pre) → pre.length = k ∧ ∀ b ∈ pre, DiscardedBlock b := by
  intro k
  induction k with
  | zero =>
    intro s sk pre h
    simp only [discardRun, Option.some.injEq, Prod.mk.injEq] at h
    obtain ⟨rfl, rfl⟩ := h
    simp
  | succ k ih =>
    intro s sk pre h
    rcases hi : acceptIter env s with ⟨st, s1, b⟩
    cases st with
    | ret conn err => simp [discardRun, hi] at h
    | crashed => simp [discardRun, hi] at h
    | «continue» =>
      simp only [discardRun, hi, Option.map_eq_some', Prod.mk.injEq] at h
      obtain ⟨⟨s2, tr⟩, hd, rfl, rfl⟩ := h
      obtain ⟨hlen, hall⟩ := ih s1 s2 tr hd
      refine ⟨by simp [hlen], ?_⟩
      intro b1 hb1
      rcases List.mem_cons.mp hb1 with rfl | hb1
      · exact acceptIter_continue_discarded env s s1 _ hi
      · exact hall b1 hb1

/-- While the first `k` connections are being discarded the run has not
finished. -/
theorem Accept_none_of_discardRun (env : Env σ RawConn Err CallerInfo Watcher)
    (k : Nat) (s sk : σ) (pre : List (List (Event RawConn Err CallerInfo Watcher)))
    (h : discardRun env k s = some (sk, pre)) : Accept env k s = none := by
  have h0 := Accept_of_discardRun env k 0 s sk pre h
  simpa [Accept] using h0

/-- Every pass starts with the raw listener `Accept` call. -/
theorem acceptIter_head (env : Env σ RawConn Err CallerInfo Watcher) (s : σ) :
    (acceptIter env s).2.2.head? =
      some (Event.rawAccept (env.rawAccept s).1.1 (env.rawAccept s).1.2) := by
  rcases acceptIter_cases env s with
    ⟨c, e, t1, ha, h1⟩ | ⟨t1, ha, h1⟩ | ⟨c, t1, caller, e, t2, evx, ha, hx, h1⟩ |
    ⟨c, t1, caller, t2, evx, w, e, t3, ha, hx, _, h1⟩ |
    ⟨c, t1, caller, t2, evx, w, t3, ha, hx, _, h1⟩ <;>
  simp [h1, ha]

/-- A successful extraction is one call of one of the two extractors, on the
connection at hand, and its caller is the one handed on. -/
theorem extractCaller_ok_calls (env : Env σ RawConn Err CallerInfo Watcher) (c : RawConn)
    (s s2 : σ) (caller : CallerInfo) (evx : List (Event RawConn Err CallerInfo Watcher))
    (hx : extractCaller env c s = ((caller, none), s2, evx)) :
    ∃ kind, extractorCalls evx = [(kind, c, caller, none)] := by
  rcases hn : env.network c s with ⟨net, s1⟩
  by_cases hu : net = "unix"
  · subst hu
    rw [extractCaller_unix env c s s1 hn] at hx
    rcases hr : env.callerFromUDSConn c s1 with ⟨⟨cl, er⟩, t⟩
    rw [hr] at hx
    simp only [Prod.mk.injEq] at hx
    obtain ⟨⟨rfl, rfl⟩, -, rfl⟩ := hx
    exact ⟨Extractor.uds, by simp [extractorCalls]⟩
  · by_cases ht : net = "tcp"
    · subst ht
      rw [extractCaller_tcp env c s s1 hn] at hx
      rcases hr : env.callerFromTCPConn c s1 with ⟨⟨cl, er⟩, t⟩
      rw [hr] at hx
      simp only [Prod.mk.injEq] at hx
      obtain ⟨⟨rfl, rfl⟩, -, rfl⟩ := hx
      exact ⟨Extractor.tcp, by simp [extractorCalls]⟩
    · rw [extractCaller_other env c s s1 net hn hu ht] at hx
      simp at hx

/-- The extractor calls of a pass on connection `c` are those of its
extraction step. -/
theorem acceptIter_extractorCalls (env : Env σ RawConn Err CallerInfo Watcher) (s s1 : σ)
    (c : RawConn) (ha : env.rawAccept s = ((some c, none), s1)) :
    extractorCalls (acceptIter env s).2.2 = extractorCalls (extractCaller env c s1).2.2 := by
  rcases acceptIter_cases env s with
    ⟨c1, e, t1, ha1, h1⟩ | ⟨t1, ha1, h1⟩ | ⟨c1, t1, caller, e, t2, evx, ha1, hx, h1⟩ |
    ⟨c1, t1, caller, t2, evx, w, e, t3, ha1, hx, _, h1⟩ |
    ⟨c1, t1, caller, t2, evx, w, t3, ha1, hx, _, h1⟩
  · rw [ha] at ha1; simp at ha1
  · rw [ha] at ha1; simp at ha1
  · rw [ha] at ha1
    simp only [Prod.mk.injEq, Option.some.injEq, true_and, and_true] at ha1
    obtain ⟨rfl, rfl⟩ := ha1
    rw [h1, hx]
    simp [extractorCalls, List.filterMap_append, List.filterMap_cons]
  · rw [ha] at ha1
    simp only [Prod.mk.injEq, Option.some.injEq, true_and, and_true] at ha1
    obtain ⟨rfl, rfl⟩ := ha1
    rw [h1, hx]
    simp [extractorCalls, List.filterMap_append, List.filterMap_cons]
  · rw [ha] at ha1
    simp only [Prod.mk.injEq, Option.some.injEq, true_and, and_true] at ha1
    obtain ⟨rfl, rfl⟩ := ha1
    rw [h1, hx]
    simp [extractorCalls, List.filterMap_append, List.filterMap_cons]

/-- The step that failed, from the closes and `NewWatcher` calls of a block. -/
theorem failedStep_extraction (b : List (Event RawConn Err CallerInfo Watcher)) (c : RawConn)
    (h1 : closedConns b = [c]) (h2 : watcherCalls b = []) :
    failedStep b = some FailedStep.callerExtraction := by
  simp [failedStep, h1, h2]

theorem failedStep_watcher (b : List (Event RawConn Err CallerInfo Watcher)) (c : RawConn)
    (x : CallerInfo × Watcher × Option Err)
    (h1 : closedConns b = [c]) (h2 : watcherCalls b = [x]) :
    failedStep b = some FailedStep.watcherCreation := by
  simp [failedStep, h1, h2]

/-- The connections obtained in a block, from the results of its raw
`Accept` calls. -/
theorem acceptedConns_eq (b : List (Event RawConn Err CallerInfo Watcher)) :
    acceptedConns b = (rawAccepts b).filterMap fun r => match r with
      | (some c, none) => some c
      | _ => none := by
  induction b with
  | nil => rfl
  | cons ev rest ih =>
    cases ev with
    | rawAccept oc oe =>
      cases oc <;> cases oe <;>
        simp [acceptedConns, rawAccepts, List.filterMap_cons] at ih ⊢ <;> exact ih
    | _ => simpa [acceptedConns, rawAccepts, List.filterMap_cons] using ih

theorem acceptedConns_append (a b : List (Event RawConn Err CallerInfo Watcher)) :
    acceptedConns (a ++ b) = acceptedConns a ++ acceptedConns b := by
  simp [acceptedConns, List.filterMap_append]

theorem closedConns_append (a b : List (Event RawConn Err CallerInfo Watcher)) :
    closedConns (a ++ b) = closedConns a ++ closedConns b := by
  simp [closedConns, List.filterMap_append]

theorem createdWatchers_append (a b : List (Event RawConn Err CallerInfo Watcher)) :
    createdWatchers (a ++ b) = createdWatchers a ++ createdWatchers b := by
  simp [createdWatchers, watcherCalls, List.filterMap_append]

/-- A discarded block obtains one connection, closes that same connection and
creates no watcher. -/
theorem DiscardedBlock.balance {b : List (Event RawConn Err CallerInfo Watcher)}
    (h : DiscardedBlock b) :
    acceptedConns b = closedConns b ∧ createdWatchers b = [] := by
  obtain ⟨c, -, -, h3, h4, -, h6, -⟩ := h
  refine ⟨?_, ?_⟩
  · rw [acceptedConns_eq, h3, h4]
    rfl
  · unfold createdWatchers
    rw [List.filterMap_eq_nil_iff]
    intro x hx
    have := h6 x hx
    cases hx2 : x.2.2 with
    | none => exact absurd hx2 this
    | some e => rfl

/-- Over any number of discarded blocks, the connections obtained are the
connections closed, in the same order, and no watcher is created. -/
theorem flatten_discarded (pre : List (List (Event RawConn Err CallerInfo Watcher)))
    (h : ∀ b ∈ pre, DiscardedBlock b) :
    acceptedConns pre.flatten = closedConns pre.flatten ∧ createdWatchers pre.flatten = [] := by
  induction pre with
  | nil => exact ⟨rfl, rfl⟩
  | cons b rest ih =>
    obtain ⟨i1, i2⟩ := ih (fun x hx => h x (List.mem_cons_of_mem _ hx))
    obtain ⟨b1, b2⟩ := (h b (List.mem_cons_self _ _)).balance
    rw [List.flatten_cons, acceptedConns_append, closedConns_append, createdWatchers_append,
      i1, i2, b1, b2]
    exact ⟨rfl, rfl⟩

end Lemmas

/-! ### The claims about `Listener.Accept` -/

section Claims

variable {σ RawConn Err CallerInfo Watcher : Type}

/-- C1: a raw accept error is fatal. If, after `k` discarded connections
(`k` may be `0`), the raw listener `Accept` returns an error `e`, then that
pass returns exactly `e` (with whatever connection value came with it); its
block holds the raw `Accept` call and nothing else, so no extraction, no
`NewWatcher`, no log call, no `Close` and no second raw `Accept`; the run has
not finished after `k` passes and finishes with that result for every bound of
more than `k` passes. -/
theorem accept_raw_error_is_fatal (env : Env σ RawConn Err CallerInfo Watcher)
    (k : Nat) (s sk s1 : σ) (pre : List (List (Event RawConn Err CallerInfo Watcher)))
    (c : Option RawConn) (e : Err)
    (hk : discardRun env k s = some (sk, pre))
    (ha : env.rawAccept sk = ((c, some e), s1)) :
    acceptIter env sk =
        (Step.ret (NetConn.raw c) (some e), s1, [Event.rawAccept c (some e)]) ∧
      Accept env k s = none ∧
      ∀ fuel, Accept env (k + (fuel + 1)) s =
        some (Outcome.returned (NetConn.raw c) (some e), s1,
          pre ++ [[Event.rawAccept c (some e)]]) := by
  have hi := acceptIter_rawError env sk s1 c e ha
  refine ⟨hi, Accept_none_of_discardRun env k s sk pre hk, ?_⟩
  intro fuel
  rw [Accept_of_discardRun env k (fuel + 1) s sk pre hk,
    Accept_succ_ret env fuel sk s1 _ _ _ hi]
  rfl

/-- Witness for C1: three connections are discarded, then the raw listener
fails. -/
theorem accept_raw_error_is_fatal_witness :
    Accept (demoEnv 3) 3 0 = none ∧
      Accept (demoEnv 3) 4 0 =
        some (Outcome.returned (NetConn.raw none) (some "use of closed listener"), 4,
          [demoBlock0, demoBlock1, demoBlock2] ++
            [[Event.rawAccept none (some "use of closed listener")]]) :=
  ⟨(accept_raw_error_is_fatal (demoEnv 3) 3 0 3 4 [demoBlock0, demoBlock1, demoBlock2]
      none "use of closed listener" (by rfl) (by rfl)).2.1,
   (accept_raw_error_is_fatal (demoEnv 3) 3 0 3 4 [demoBlock0, demoBlock1, demoBlock2]
      none "use of closed listener" (by rfl) (by rfl)).2.2 0⟩

/-- C2: per-connection failures are contained. If a run of `Accept` returns a
non-nil error `e`, then every pass before the last one discarded its
connection, the last pass consists of the raw listener `Accept` call alone,
that call returned `e`, and it is the last raw `Accept` call of the run; the
errors of the extractors and of `NewWatcher` all lie in the discarded blocks
before it. -/
theorem accept_error_comes_from_raw_listener (env : Env σ RawConn Err CallerInfo Watcher)
    (fuel : Nat) (s sf : σ) (nc : NetConn RawConn CallerInfo Watcher) (e : Err)
    (tr : List (List (Event RawConn Err CallerInfo Watcher)))
    (h : Accept env fuel s = some (Outcome.returned nc (some e), sf, tr)) :
    ∃ k sk pre c, k < fuel ∧ discardRun env k s = some (sk, pre) ∧
      env.rawAccept sk = ((c, some e), sf) ∧ nc = NetConn.raw c ∧
      tr = pre ++ [[Event.rawAccept c (some e)]] ∧
      (∀ b ∈ pre, DiscardedBlock b) ∧
      (rawAccepts tr.flatten).getLast? = some (c, some e) ∧
      (∀ b ∈ tr, (∃ x ∈ extractorCalls b, x.2.2.2 ≠ none) ∨ (∃ x ∈ watcherCalls b, x.2.2 ≠ none) →
        b ∈ pre) := by
  obtain ⟨k, sk, pre, st, last, hk, hd, hl, ho, rfl⟩ := Accept_inv env fuel s sf _ tr h
  rcases acceptIter_cases env sk with
    ⟨c, e1, t1, ha, h1⟩ | ⟨t1, ha, h1⟩ | ⟨c, t1, caller, e1, t2, evx, ha, hx, h1⟩ |
    ⟨c, t1, caller, t2, evx, w, e1, t3, ha, hx, _, h1⟩ |
    ⟨c, t1, caller, t2, evx, w, t3, ha, hx, _, h1⟩
  · rw [h1] at hl
    simp only [Prod.mk.injEq] at hl
    obtain ⟨rfl, rfl, rfl⟩ := hl
    simp only [Step.outcome, Option.some.injEq, Outcome.returned.injEq] at ho
    obtain ⟨rfl, ho2⟩ := ho
    subst ho2
    refine ⟨k, sk, pre, c, hk, hd, ha, rfl, rfl, (discardRun_discarded env k s sk pre hd).2, ?_, ?_⟩
    · simp [rawAccepts, List.filterMap_append]
    · intro b hb hbad
      rcases List.mem_append.mp hb with hb | hb
      · exact hb
      · simp only [List.mem_singleton] at hb
        subst hb
        simp [extractorCalls, watcherCalls] at hbad
  · rw [h1] at hl
    simp only [Prod.mk.injEq] at hl
    obtain ⟨rfl, -, -⟩ := hl
    simp [Step.outcome] at ho
  · rw [h1] at hl
    simp only [Prod.mk.injEq] at hl
    obtain ⟨rfl, -, -⟩ := hl
    simp [Step.outcome] at ho
  · rw [h1] at hl
    simp only [Prod.mk.injEq] at hl
    obtain ⟨rfl, -, -⟩ := hl
    simp [Step.outcome] at ho
  · rw [h1] at hl
    simp only [Prod.mk.injEq] at hl
    obtain ⟨rfl, -, -⟩ := hl
    simp [Step.outcome] at ho

/-- Witness for C2: the run that ends in the failure of the raw listener. -/
theorem accept_error_comes_from_raw_listener_witness :
    ∃ k sk pre c, k < 7 ∧ discardRun (demoEnv 3) k 0 = some (sk, pre) ∧
      (demoEnv 3).rawAccept sk = ((c, some "use of closed listener"), 4) ∧
      (NetConn.raw none : NetConn Nat Nat Nat) = NetConn.raw c ∧
      [demoBlock0, demoBlock1, demoBlock2,
          [Event.rawAccept none (some "use of closed listener")]] =
        pre ++ [[Event.rawAccept c (some "use of closed listener")]] ∧
      (∀ b ∈ pre, DiscardedBlock b) ∧
      (rawAccepts (List.flatten [demoBlock0, demoBlock1, demoBlock2,
          [Event.rawAccept none (some "use of closed listener")]])).getLast? =
        some (c, some "use of closed listener") ∧
      (∀ b ∈ [demoBlock0, demoBlock1, demoBlock2,
          [Event.rawAccept none (some "use of closed listener")]],
        (∃ x ∈ extractorCalls b, x.2.2.2 ≠ none) ∨ (∃ x ∈ watcherCalls b, x.2.2 ≠ none) →
        b ∈ pre) :=
  accept_error_comes_from_raw_listener (demoEnv 3) 7 0 4 (NetConn.raw none)
    "use of closed listener"
    [demoBlock0, demoBlock1, demoBlock2, [Event.rawAccept none (some "use of closed listener")]]
    (by rfl)

/-- C3: the success result. If a run of `Accept` returns a nil error, then
every earlier pass discarded its connection and the last pass obtained a
connection `c` from the raw listener, extracted `caller` from `c` without
error (one call of one extractor, on `c`), got `w` from
`NewWatcher(caller)` without error, and the value returned is the `Conn`
wrapping `c` with `Info.Caller = caller` and `Info.Watcher = w`; the last
block holds no other `NewWatcher` call and no close. -/
theorem accept_success_result (env : Env σ RawConn Err CallerInfo Watcher)
    (fuel : Nat) (s sf : σ) (nc : NetConn RawConn CallerInfo Watcher)
    (tr : List (List (Event RawConn Err CallerInfo Watcher)))
    (h : Accept env fuel s = some (Outcome.returned nc none, sf, tr)) :
    ∃ k sk pre c s1 caller s2 evx w kind, k < fuel ∧ discardRun env k s = some (sk, pre) ∧
      (∀ b ∈ pre, DiscardedBlock b) ∧
      env.rawAccept sk = ((some c, none), s1) ∧
      extractCaller env c s1 = ((caller, none), s2, evx) ∧
      extractorCalls evx = [(kind, c, caller, none)] ∧
      env.newWatcher caller s2 = ((w, none), sf) ∧
      nc = NetConn.wrapped ⟨c, ⟨caller, w⟩⟩ ∧
      tr = pre ++ [Event.rawAccept (some c) none :: (evx ++ [Event.newWatcher caller w none])] ∧
      watcherCalls (Event.rawAccept (some c) none :: (evx ++ [Event.newWatcher caller w none])) =
        [(caller, w, none)] ∧
      closedConns (Event.rawAccept (some c) none :: (evx ++ [Event.newWatcher caller w none])) =
        [] := by
  obtain ⟨k, sk, pre, st, last, hk, hd, hl, ho, rfl⟩ := Accept_inv env fuel s sf _ tr h
  rcases acceptIter_cases env sk with
    ⟨c, e1, t1, ha, h1⟩ | ⟨t1, ha, h1⟩ | ⟨c, t1, caller, e1, t2, evx, ha, hx, h1⟩ |
    ⟨c, t1, caller, t2, evx, w, e1, t3, ha, hx, _, h1⟩ |
    ⟨c, t1, caller, t2, evx, w, t3, ha, hx, hw, h1⟩
  · rw [h1] at hl
    simp only [Prod.mk.injEq] at hl
    obtain ⟨rfl, -, -⟩ := hl
    simp [Step.outcome] at ho
  · rw [h1] at hl
    simp only [Prod.mk.injEq] at hl
    obtain ⟨rfl, -, -⟩ := hl
    simp [Step.outcome] at ho
  · rw [h1] at hl
    simp only [Prod.mk.injEq] at hl
    obtain ⟨rfl, -, -⟩ := hl
    simp [Step.outcome] at ho
  · rw [h1] at hl
    simp only [Prod.mk.injEq] at hl
    obtain ⟨rfl, -, -⟩ := hl
    simp [Step.outcome] at ho
  · rw [h1] at hl
    simp only [Prod.mk.injEq] at hl
    obtain ⟨rfl, rfl, rfl⟩ := hl
    simp only [Step.outcome, Option.some.injEq, Outcome.returned.injEq, and_true] at ho
    subst ho
    obtain ⟨kind, hkind⟩ := extractCaller_ok_calls env c t1 t2 caller evx hx
    obtain ⟨-, q2, q3, -⟩ := quiet_of_extractCaller env c t1 t2 _ evx hx
    simp only [closedConns, watcherCalls] at q2 q3
    refine ⟨k, sk, pre, c, t1, caller, t2, evx, w, kind, hk, hd,
      (discardRun_discarded env k s sk pre hd).2, ha, hx, hkind, hw, rfl, rfl, ?_, ?_⟩
    · simp [watcherCalls, List.filterMap_append, List.filterMap_cons, q3]
    · simp [closedConns, List.filterMap_append, List.filterMap_cons, q2]

/-- Witness for C3: three connections are discarded and the fourth is
returned with its own caller `103` and watcher `1103`. -/
theorem accept_success_result_witness :
    ∃ k sk pre c s1 caller s2 evx w kind, k < 4 ∧ discardRun (demoEnv 4) k 0 = some (sk, pre) ∧
      (∀ b ∈ pre, DiscardedBlock b) ∧
      (demoEnv 4).rawAccept sk = ((some c, none), s1) ∧
      extractCaller (demoEnv 4) c s1 = ((caller, none), s2, evx) ∧
      extractorCalls evx = [(kind, c, caller, none)] ∧
      (demoEnv 4).newWatcher caller s2 = ((w, none), 4) ∧
      (NetConn.wrapped ⟨3, ⟨103, 1103⟩⟩ : NetConn Nat Nat Nat) = NetConn.wrapped ⟨c, ⟨caller, w⟩⟩ ∧
      [demoBlock0, demoBlock1, demoBlock2, demoBlock3] =
        pre ++ [Event.rawAccept (some c) none :: (evx ++ [Event.newWatcher caller w none])] ∧
      watcherCalls (Event.rawAccept (some c) none :: (evx ++ [Event.newWatcher caller w none])) =
        [(caller, w, none)] ∧
      closedConns (Event.rawAccept (some c) none :: (evx ++ [Event.newWatcher caller w none])) =
        [] :=
  accept_success_result (demoEnv 4) 4 0 4 (NetConn.wrapped ⟨3, ⟨103, 1103⟩⟩)
    [demoBlock0, demoBlock1, demoBlock2, demoBlock3] (by rfl)

/-- C4: an extraction failure is skipped. If the raw listener hands out `c` and
caller extraction on `c` fails with `e`, the pass logs, closes `c` (once),
never calls `NewWatcher`, and ends in `continue`: `Accept` does not return on
this pass, and the run goes on from the state after the close, where the next
thing done is the next raw listener `Accept` call. -/
theorem extraction_failure_is_skipped (env : Env σ RawConn Err CallerInfo Watcher)
    (s s1 s2 : σ) (c : RawConn) (caller : CallerInfo) (e : Err)
    (evx : List (Event RawConn Err CallerInfo Watcher))
    (ha : env.rawAccept s = ((some c, none), s1))
    (hx : extractCaller env c s1 = ((caller, some e), s2, evx)) :
    acceptIter env s =
        (Step.continue, (env.connClose c (env.log (discardEntry e) s2)).2,
          Event.rawAccept (some c) none ::
            (evx ++ [Event.log (discardEntry e), Event.connClose c])) ∧
      closedConns (acceptIter env s).2.2 = [c] ∧
      watcherCalls (acceptIter env s).2.2 = [] ∧
      Accept env 1 s = none ∧
      (∀ fuel, Accept env (fuel + 1) s =
        (Accept env fuel (acceptIter env s).2.1).map (pushBlock (acceptIter env s).2.2)) ∧
      (acceptIter env (acceptIter env s).2.1).2.2.head? =
        some (Event.rawAccept (env.rawAccept (acceptIter env s).2.1).1.1
          (env.rawAccept (acceptIter env s).2.1).1.2) := by
  have hi := acceptIter_extractFail env s s1 s2 c caller e evx ha hx
  obtain ⟨-, q2, q3, -⟩ := quiet_of_extractCaller env c s1 s2 _ evx hx
  simp only [closedConns, watcherCalls] at q2 q3
  refine ⟨hi, ?_, ?_, ?_, ?_, acceptIter_head env _⟩
  · rw [hi]
    simp [closedConns, List.filterMap_append, List.filterMap_cons, q2]
  · rw [hi]
    simp [watcherCalls, List.filterMap_append, List.filterMap_cons, q3]
  · rw [Accept_succ_continue env 0 s _ _ hi]
    simp [Accept]
  · intro fuel
    rw [Accept_succ_continue env fuel s _ _ hi, hi]

/-- Witness for C4: connection `1`, whose credentials cannot be read. -/
theorem extraction_failure_is_skipped_witness :
    acceptIter (demoEnv 4) 1 = (Step.continue, 2, demoBlock1) ∧
      closedConns (acceptIter (demoEnv 4) 1).2.2 = [1] ∧
      watcherCalls (acceptIter (demoEnv 4) 1).2.2 = [] ∧
      Accept (demoEnv 4) 1 1 = none :=
  ⟨(extraction_failure_is_skipped (demoEnv 4) 1 2 2 1 101 "denied"
      [Event.network 1 "unix", Event.callerFromUDSConn 1 101 (some "denied")]
      (by rfl) (by rfl)).1,
   (extraction_failure_is_skipped (demoEnv 4) 1 2 2 1 101 "denied"
      [Event.network 1 "unix", Event.callerFromUDSConn 1 101 (some "denied")]
      (by rfl) (by rfl)).2.1,
   (extraction_failure_is_skipped (demoEnv 4) 1 2 2 1 101 "denied"
      [Event.network 1 "unix", Event.callerFromUDSConn 1 101 (some "denied")]
      (by rfl) (by rfl)).2.2.1,
   (extraction_failure_is_skipped (demoEnv 4) 1 2 2 1 101 "denied"
      [Event.network 1 "unix", Event.callerFromUDSConn 1 101 (some "denied")]
      (by rfl) (by rfl)).2.2.2.1⟩

/-- C5: a watcher-creation failure is skipped. If the raw listener hands out
`c`, caller extraction on `c` succeeds with `caller`, and
`NewWatcher(caller)` fails with any error `e`, the pass logs, closes `c`
(once) and ends in `continue`: nothing is returned for `c`, `NewWatcher` was
called that one time only, and the run goes on from the state after the close,
where the next thing done is the next raw listener `Accept` call. -/
theorem watcher_failure_is_skipped (env : Env σ RawConn Err CallerInfo Watcher)
    (s s1 s2 s3 : σ) (c : RawConn) (caller : CallerInfo) (w : Watcher) (e : Err)
    (evx : List (Event RawConn Err CallerInfo Watcher))
    (ha : env.rawAccept s = ((some c, none), s1))
    (hx : extractCaller env c s1 = ((caller, none), s2, evx))
    (hw : env.newWatcher caller s2 = ((w, some e), s3)) :
    acceptIter env s =
        (Step.continue, (env.connClose c (env.log (discardEntry e) s3)).2,
          Event.rawAccept (some c) none ::
            (evx ++ [Event.newWatcher caller w (some e), Event.log (discardEntry e),
              Event.connClose c])) ∧
      closedConns (acceptIter env s).2.2 = [c] ∧
      watcherCalls (acceptIter env s).2.2 = [(caller, w, some e)] ∧
      Accept env 1 s = none ∧
      (∀ fuel, Accept env (fuel + 1) s =
        (Accept env fuel (acceptIter env s).2.1).map (pushBlock (acceptIter env s).2.2)) ∧
      (acceptIter env (acceptIter env s).2.1).2.2.head? =
        some (Event.rawAccept (env.rawAccept (acceptIter env s).2.1).1.1
          (env.rawAccept (acceptIter env s).2.1).1.2) := by
  have hi := acceptIter_watcherFail env s s1 s2 s3 c caller w e evx ha hx hw
  obtain ⟨-, q2, q3, -⟩ := quiet_of_extractCaller env c s1 s2 _ evx hx
  simp only [closedConns, watcherCalls] at q2 q3
  refine ⟨hi, ?_, ?_, ?_, ?_, acceptIter_head env _⟩
  · rw [hi]
    simp [closedConns, List.filterMap_append, List.filterMap_cons, q2]
  · rw [hi]
    simp [watcherCalls, List.filterMap_append, List.filterMap_cons, q3]
  · rw [Accept_succ_continue env 0 s _ _ hi]
    simp [Accept]
  · intro fuel
    rw [Accept_succ_continue env fuel s _ _ hi, hi]

/-- Witness for C5: connection `2`, whose watcher cannot be created. -/
theorem watcher_failure_is_skipped_witness :
    acceptIter (demoEnv 4) 2 = (Step.continue, 3, demoBlock2) ∧
      closedConns (acceptIter (demoEnv 4) 2).2.2 = [2] ∧
      watcherCalls (acceptIter (demoEnv 4) 2).2.2 = [(202, 1202, some "denied")] ∧
      Accept (demoEnv 4) 1 2 = none :=
  ⟨(watcher_failure_is_skipped (demoEnv 4) 2 3 3 3 2 202 1202 "denied"
      [Event.network 2 "tcp", Event.callerFromTCPConn 2 202 none]
      (by rfl) (by rfl) (by rfl)).1,
   (watcher_failure_is_skipped (demoEnv 4) 2 3 3 3 2 202 1202 "denied"
      [Event.network 2 "tcp", Event.callerFromTCPConn 2 202 none]
      (by rfl) (by rfl) (by rfl)).2.1,
   (watcher_failure_is_skipped (demoEnv 4) 2 3 3 3 2 202 1202 "denied"
      [Event.network 2 "tcp", Event.callerFromTCPConn 2 202 none]
      (by rfl) (by rfl) (by rfl)).2.2.1,
   (watcher_failure_is_skipped (demoEnv 4) 2 3 3 3 2 202 1202 "denied"
      [Event.network 2 "tcp", Event.callerFromTCPConn 2 202 none]
      (by rfl) (by rfl) (by rfl)).2.2.2.1⟩

/-- C6: transport dispatch. For a connection `c` handed out by the raw
listener whose remote address network is `net`: if `net` is neither `"unix"`
nor `"tcp"`, no extractor is called, the error logged is
`ErrUnsupportedTransport`, `c` is closed, and the pass ends in `continue`, so
`c` is not returned and the loop goes on; if `net` is `"unix"` the only
extractor call of the pass is `CallerFromUDSConn(c)`; if `net` is `"tcp"` it
is `CallerFromTCPConn(c)`. -/
theorem transport_dispatch (env : Env σ RawConn Err CallerInfo Watcher)
    (s s1 s2 : σ) (c : RawConn) (net : String)
    (ha : env.rawAccept s = ((some c, none), s1))
    (hn : env.network c s1 = (net, s2)) :
    (net ≠ "unix" → net ≠ "tcp" →
        acceptIter env s =
          (Step.continue,
            (env.connClose c (env.log (discardEntry env.errUnsupportedTransport) s2)).2,
            [Event.rawAccept (some c) none, Event.network c net,
             Event.log (discardEntry env.errUnsupportedTransport), Event.connClose c]) ∧
        extractorCalls (acceptIter env s).2.2 = [] ∧
        ∀ fuel, Accept env (fuel + 1) s =
          (Accept env fuel (acceptIter env s).2.1).map (pushBlock (acceptIter env s).2.2)) ∧
      (net = "unix" →
        extractorCalls (acceptIter env s).2.2 =
          [(Extractor.uds, c, (env.callerFromUDSConn c s2).1.1,
            (env.callerFromUDSConn c s2).1.2)]) ∧
      (net = "tcp" →
        extractorCalls (acceptIter env s).2.2 =
          [(Extractor.tcp, c, (env.callerFromTCPConn c s2).1.1,
            (env.callerFromTCPConn c s2).1.2)]) := by
  refine ⟨?_, ?_, ?_⟩
  · intro hu ht
    have hx := extractCaller_other env c s1 s2 net hn hu ht
    have hi := acceptIter_extractFail env s s1 s2 c _ _ _ ha hx
    simp only [List.singleton_append] at hi
    refine ⟨hi, ?_, ?_⟩
    · rw [hi]
      simp [extractorCalls]
    · intro fuel
      rw [Accept_succ_continue env fuel s _ _ hi, hi]
  · intro hu
    subst hu
    rw [acceptIter_extractorCalls env s s1 c ha, extractCaller_unix env c s1 s2 hn]
    simp [extractorCalls]
  · intro ht
    subst ht
    rw [acceptIter_extractorCalls env s s1 c ha, extractCaller_tcp env c s1 s2 hn]
    simp [extractorCalls]

/-- Witness for C6: connection `0` is a `udp` peer, connection `3` a `unix`
peer and connection `2` a `tcp` peer. -/
theorem transport_dispatch_witness :
    (acceptIter (demoEnv 4) 0 = (Step.continue, 1, demoBlock0) ∧
        extractorCalls (acceptIter (demoEnv 4) 0).2.2 = [] ∧
        ∀ fuel, Accept (demoEnv 4) (fuel + 1) 0 =
          (Accept (demoEnv 4) fuel (acceptIter (demoEnv 4) 0).2.1).map
            (pushBlock (acceptIter (demoEnv 4) 0).2.2)) ∧
      extractorCalls (acceptIter (demoEnv 4) 3).2.2 = [(Extractor.uds, 3, 103, none)] ∧
      extractorCalls (acceptIter (demoEnv 4) 2).2.2 = [(Extractor.tcp, 2, 202, none)] :=
  ⟨(transport_dispatch (demoEnv 4) 0 1 1 0 "udp" (by rfl) (by rfl)).1 (by decide) (by decide),
   (transport_dispatch (demoEnv 4) 3 4 4 3 "unix" (by rfl) (by rfl)).2.1 rfl,
   (transport_dispatch (demoEnv 4) 2 3 3 2 "tcp" (by rfl) (by rfl)).2.2 rfl⟩

/-- C7: `Listener.Close` calls `Tracker.Close` and then the raw listener
`Close`, each exactly once and in that order (the raw `Close` runs in the world
left by `Tracker.Close`), and returns exactly what the raw `Close` returned,
whether or not that is an error. -/
theorem close_order_and_result (env : Env σ RawConn Err CallerInfo Watcher) (s : σ) :
    Close env s =
        ((env.rawClose (env.trackerClose s)).1, (env.rawClose (env.trackerClose s)).2,
          [Event.trackerClose, Event.rawClose (env.rawClose (env.trackerClose s)).1]) ∧
      trackerCloses (Close env s).2.2 = 1 ∧
      rawCloses (Close env s).2.2 = [(Close env s).1] := by
  have h : Close env s =
      ((env.rawClose (env.trackerClose s)).1, (env.rawClose (env.trackerClose s)).2,
        [Event.trackerClose, Event.rawClose (env.rawClose (env.trackerClose s)).1]) := by
    simp [Close]
  refine ⟨h, ?_, ?_⟩
  · rw [h]
    simp [trackerCloses]
  · rw [h]
    simp [rawCloses]

/-- C8, as stated, fails: the warning does not tell which step failed. In the
concrete world connection `1` is discarded in caller extraction and connection
`2` in watcher creation, both with the error `"denied"`, and the two passes
log the very same entry; hence no function of the logged entry recovers the
failed step. -/
theorem discard_log_does_not_name_step :
    failedStep (acceptIter (demoEnv 4) 1).2.2 = some FailedStep.callerExtraction ∧
      failedStep (acceptIter (demoEnv 4) 2).2.2 = some FailedStep.watcherCreation ∧
      logged (acceptIter (demoEnv 4) 1).2.2 = logged (acceptIter (demoEnv 4) 2).2.2 ∧
      ¬ ∃ stepOf : LogEntry String → FailedStep,
        ∀ (env : Env Nat Nat String Nat Nat) (s : Nat) (st : FailedStep),
          failedStep (acceptIter env s).2.2 = some st →
          ∀ entry ∈ logged (acceptIter env s).2.2, stepOf entry = st := by
  refine ⟨by rfl, by rfl, by rfl, ?_⟩
  rintro ⟨stepOf, h⟩
  have m1 : discardEntry "denied" ∈ logged (acceptIter (demoEnv 4) 1).2.2 := by
    rw [show logged (acceptIter (demoEnv 4) 1).2.2 = [discardEntry "denied"] from rfl]
    exact List.mem_singleton.mpr rfl
  have m2 : discardEntry "denied" ∈ logged (acceptIter (demoEnv 4) 2).2.2 := by
    rw [show logged (acceptIter (demoEnv 4) 2).2.2 = [discardEntry "denied"] from rfl]
    exact List.mem_singleton.mpr rfl
  have e1 := h (demoEnv 4) 1 FailedStep.callerExtraction (by rfl) _ m1
  have e2 := h (demoEnv 4) 2 FailedStep.watcherCreation (by rfl) _ m2
  rw [e1] at e2
  cases e2

/-- C8, amended: a pass that discards its connection logs exactly one entry,
at warning level, carrying the error of the step that failed (the extraction
error, or else the `NewWatcher` error) and the fixed message
`"Connection failed during accept"`; a pass that returns, with a connection or
with the raw accept error, logs nothing. -/
theorem discard_logging (env : Env σ RawConn Err CallerInfo Watcher) (s : σ) :
    ((acceptIter env s).1 = Step.continue →
        ∃ c e, (env.rawAccept s).1 = (some c, none) ∧
          logged (acceptIter env s).2.2 =
            [⟨Level.warnLevel, e, "Connection failed during accept"⟩] ∧
          ((failedStep (acceptIter env s).2.2 = some FailedStep.callerExtraction ∧
              (extractCaller env c (env.rawAccept s).2).1.2 = some e) ∨
            (failedStep (acceptIter env s).2.2 = some FailedStep.watcherCreation ∧
              (extractCaller env c (env.rawAccept s).2).1.2 = none ∧
              (env.newWatcher (extractCaller env c (env.rawAccept s).2).1.1
                (extractCaller env c (env.rawAccept s).2).2.1).1.2 = some e))) ∧
      ((acceptIter env s).1 ≠ Step.continue → logged (acceptIter env s).2.2 = []) := by
  rcases acceptIter_cases env s with
    ⟨c, e, t1, ha, h1⟩ | ⟨t1, ha, h1⟩ | ⟨c, t1, caller, e, t2, evx, ha, hx, h1⟩ |
    ⟨c, t1, caller, t2, evx, w, e, t3, ha, hx, hw, h1⟩ |
    ⟨c, t1, caller, t2, evx, w, t3, ha, hx, hw, h1⟩
  · rw [h1]
    simp [logged]
  · rw [h1]
    simp [logged]
  · obtain ⟨-, q2, q3, q4⟩ := quiet_of_extractCaller env c t1 t2 _ evx hx
    have hc : closedConns (acceptIter env s).2.2 = [c] := by
      simp only [closedConns] at q2
      rw [h1]
      simp [closedConns, List.filterMap_append, List.filterMap_cons, q2]
    have hwc : watcherCalls (acceptIter env s).2.2 = [] := by
      simp only [watcherCalls] at q3
      rw [h1]
      simp [watcherCalls, List.filterMap_append, List.filterMap_cons, q3]
    have hl : logged (acceptIter env s).2.2 = [discardEntry e] := by
      simp only [logged] at q4
      rw [h1]
      simp [logged, List.filterMap_append, List.filterMap_cons, q4]
    refine ⟨fun _ => ⟨c, e, by rw [ha], hl, Or.inl ⟨failedStep_extraction _ c hc hwc, ?_⟩⟩, ?_⟩
    · rw [ha, hx]
    · intro hne
      rw [h1] at hne
      exact absurd rfl hne
  · obtain ⟨-, q2, q3, q4⟩ := quiet_of_extractCaller env c t1 t2 _ evx hx
    have hc : closedConns (acceptIter env s).2.2 = [c] := by
      simp only [closedConns] at q2
      rw [h1]
      simp [closedConns, List.filterMap_append, List.filterMap_cons, q2]
    have hwc : watcherCalls (acceptIter env s).2.2 = [(caller, w, some e)] := by
      simp only [watcherCalls] at q3
      rw [h1]
      simp [watcherCalls, List.filterMap_append, List.filterMap_cons, q3]
    have hl : logged (acceptIter env s).2.2 = [discardEntry e] := by
      simp only [logged] at q4
      rw [h1]
      simp [logged, List.filterMap_append, List.filterMap_cons, q4]
    refine ⟨fun _ => ⟨c, e, by rw [ha], hl,
      Or.inr ⟨failedStep_watcher _ c _ hc hwc, ?_, ?_⟩⟩, ?_⟩
    · rw [ha, hx]
    · rw [ha, hx, hw]
    · intro hne
      rw [h1] at hne
      exact absurd rfl hne
  · obtain ⟨-, -, -, q4⟩ := quiet_of_extractCaller env c t1 t2 _ evx hx
    simp only [logged] at q4
    rw [h1]
    simp [logged, List.filterMap_append, List.filterMap_cons, q4]

/-- Witness for C8 (amended): connection `2` is discarded with one warning
carrying the `NewWatcher` error, and the pass that returns connection `3` logs
nothing. -/
theorem discard_logging_witness :
    (∃ c e, ((demoEnv 4).rawAccept 2).1 = (some c, none) ∧
        logged (acceptIter (demoEnv 4) 2).2.2 =
          [⟨Level.warnLevel, e, "Connection failed during accept"⟩] ∧
        ((failedStep (acceptIter (demoEnv 4) 2).2.2 = some FailedStep.callerExtraction ∧
            (extractCaller (demoEnv 4) c ((demoEnv 4).rawAccept 2).2).1.2 = some e) ∨
          (failedStep (acceptIter (demoEnv 4) 2).2.2 = some FailedStep.watcherCreation ∧
            (extractCaller (demoEnv 4) c ((demoEnv 4).rawAccept 2).2).1.2 = none ∧
            ((demoEnv 4).newWatcher (extractCaller (demoEnv 4) c ((demoEnv 4).rawAccept 2).2).1.1
              (extractCaller (demoEnv 4) c ((demoEnv 4).rawAccept 2).2).2.1).1.2 = some e))) ∧
      logged (acceptIter (demoEnv 4) 3).2.2 = [] :=
  ⟨(discard_logging (demoEnv 4) 2).1 (by rfl),
   (discard_logging (demoEnv 4) 3).2 (by decide)⟩

/-- C10: `Accept` leaks no connection. In every run of `Accept` that ends,
each pass before the last obtained one connection and closed that same
connection once (at most one `NewWatcher` call, none successful); the last
pass either failed in the raw `Accept` (no connection obtained, nothing closed,
no `NewWatcher` call), or obtained the connection that is returned wrapped,
closed nothing, and made exactly one `NewWatcher` call, whose watcher is the
one attached, or stopped on a nil connection before anything was obtained.
Over the whole run the connections obtained are the connections closed
followed by the returned one, and the watchers created are exactly the one
attached to the returned connection. -/
theorem accept_leaks_no_connection (env : Env σ RawConn Err CallerInfo Watcher)
    (fuel : Nat) (s sf : σ) (out : Outcome RawConn Err CallerInfo Watcher)
    (tr : List (List (Event RawConn Err CallerInfo Watcher)))
    (h : Accept env fuel s = some (out, sf, tr)) :
    ∃ pre last, tr = pre ++ [last] ∧ (∀ b ∈ pre, DiscardedBlock b) ∧
      ((∃ rc e, out = Outcome.returned (NetConn.raw rc) (some e) ∧ acceptedConns last = [] ∧
          closedConns last = [] ∧ watcherCalls last = []) ∨
        (∃ w, out = Outcome.returned (NetConn.wrapped w) none ∧
          acceptedConns last = [w.Conn] ∧ closedConns last = [] ∧
          watcherCalls last = [(w.Info.Caller, w.Info.Watcher, none)]) ∨
        (out = Outcome.crashed ∧ acceptedConns last = [] ∧ closedConns last = [] ∧
          watcherCalls last = [])) ∧
      acceptedConns tr.flatten = closedConns tr.flatten ++ out.wrappedConns ∧
      createdWatchers tr.flatten = out.attached := by
  obtain ⟨k, sk, pre, st, last, hk, hd, hl, ho, rfl⟩ := Accept_inv env fuel s sf _ tr h
  have hpre := (discardRun_discarded env k s sk pre hd).2
  obtain ⟨f1, f2⟩ := flatten_discarded pre hpre
  have key : (∃ rc e, out = Outcome.returned (NetConn.raw rc) (some e) ∧
          acceptedConns last = [] ∧ closedConns last = [] ∧ watcherCalls last = []) ∨
        (∃ w, out = Outcome.returned (NetConn.wrapped w) none ∧
          acceptedConns last = [w.Conn] ∧ closedConns last = [] ∧
          watcherCalls last = [(w.Info.Caller, w.Info.Watcher, none)]) ∨
        (out = Outcome.crashed ∧ acceptedConns last = [] ∧ closedConns last = [] ∧
          watcherCalls last = []) := by
    rcases acceptIter_cases env sk with
      ⟨c, e1, t1, ha, h1⟩ | ⟨t1, ha, h1⟩ | ⟨c, t1, caller, e1, t2, evx, ha, hx, h1⟩ |
      ⟨c, t1, caller, t2, evx, w, e1, t3, ha, hx, _, h1⟩ |
      ⟨c, t1, caller, t2, evx, w, t3, ha, hx, hw, h1⟩
    · rw [h1] at hl
      simp only [Prod.mk.injEq] at hl
      obtain ⟨rfl, rfl, rfl⟩ := hl
      simp only [Step.outcome, Option.some.injEq] at ho
      subst ho
      refine Or.inl ⟨c, e1, rfl, ?_, ?_, ?_⟩
      · cases c <;> simp [acceptedConns]
      · simp [closedConns]
      · simp [watcherCalls]
    · rw [h1] at hl
      simp only [Prod.mk.injEq] at hl
      obtain ⟨rfl, rfl, rfl⟩ := hl
      simp only [Step.outcome, Option.some.injEq] at ho
      subst ho
      refine Or.inr (Or.inr ⟨rfl, ?_, ?_, ?_⟩)
      · simp [acceptedConns]
      · simp [closedConns]
      · simp [watcherCalls]
    · rw [h1] at hl
      simp only [Prod.mk.injEq] at hl
      obtain ⟨rfl, -, -⟩ := hl
      simp [Step.outcome] at ho
    · rw [h1] at hl
      simp only [Prod.mk.injEq] at hl
      obtain ⟨rfl, -, -⟩ := hl
      simp [Step.outcome] at ho
    · rw [h1] at hl
      simp only [Prod.mk.injEq] at hl
      obtain ⟨rfl, rfl, rfl⟩ := hl
      simp only [Step.outcome, Option.some.injEq] at ho
      subst ho
      obtain ⟨q1, q2, q3, -⟩ := quiet_of_extractCaller env c t1 t2 _ evx hx
      refine Or.inr (Or.inl ⟨⟨c, ⟨caller, w⟩⟩, rfl, ?_, ?_, ?_⟩)
      · rw [acceptedConns_eq]
        simp only [rawAccepts] at q1
        simp [rawAccepts, List.filterMap_append, List.filterMap_cons, q1]
      · simp only [closedConns] at q2
        simp [closedConns, List.filterMap_append, List.filterMap_cons, q2]
      · simp only [watcherCalls] at q3
        simp [watcherCalls, List.filterMap_append, List.filterMap_cons, q3]
  refine ⟨pre, last, rfl, hpre, key, ?_, ?_⟩
  · rw [List.flatten_append, acceptedConns_append, closedConns_append, f1]
    rcases key with ⟨rc, e, rfl, k1, k2, -⟩ | ⟨w, rfl, k1, k2, -⟩ | ⟨rfl, k1, k2, -⟩
    · simp [k1, k2, Outcome.wrappedConns]
    · simp [k1, k2, Outcome.wrappedConns]
    · simp [k1, k2, Outcome.wrappedConns]
  · rw [List.flatten_append, createdWatchers_append, f2]
    rcases key with ⟨rc, e, rfl, -, -, k3⟩ | ⟨w, rfl, -, -, k3⟩ | ⟨rfl, -, -, k3⟩
    · simp [createdWatchers, k3, Outcome.attached]
    · simp [createdWatchers, k3, Outcome.attached]
    · simp [createdWatchers, k3, Outcome.attached]

/-- Witness for C10: connections `0`, `1`, `2` are obtained and closed, and
connection `3` is obtained and returned with the only watcher created. -/
theorem accept_leaks_no_connection_witness :
    ∃ pre last, [demoBlock0, demoBlock1, demoBlock2, demoBlock3] = pre ++ [last] ∧
      (∀ b ∈ pre, DiscardedBlock b) ∧
      ((∃ rc e, (Outcome.returned (NetConn.wrapped ⟨3, ⟨103, 1103⟩⟩) none :
            Outcome Nat String Nat Nat) = Outcome.returned (NetConn.raw rc) (some e) ∧
          acceptedConns last = [] ∧ closedConns last = [] ∧ watcherCalls last = []) ∨
        (∃ w, (Outcome.returned (NetConn.wrapped ⟨3, ⟨103, 1103⟩⟩) none :
            Outcome Nat String Nat Nat) = Outcome.returned (NetConn.wrapped w) none ∧
          acceptedConns last = [w.Conn] ∧ closedConns last = [] ∧
          watcherCalls last = [(w.Info.Caller, w.Info.Watcher, none)]) ∨
        ((Outcome.returned (NetConn.wrapped ⟨3, ⟨103, 1103⟩⟩) none :
            Outcome Nat String Nat Nat) = Outcome.crashed ∧
          acceptedConns last = [] ∧ closedConns last = [] ∧ watcherCalls last = [])) ∧
      acceptedConns (List.flatten [demoBlock0, demoBlock1, demoBlock2, demoBlock3]) =
        closedConns (List.flatten [demoBlock0, demoBlock1, demoBlock2, demoBlock3]) ++
          (Outcome.returned (NetConn.wrapped ⟨3, ⟨103, 1103⟩⟩) none :
            Outcome Nat String Nat Nat).wrappedConns ∧
      createdWatchers (List.flatten [demoBlock0, demoBlock1, demoBlock2, demoBlock3]) =
        (Outcome.returned (NetConn.wrapped ⟨3, ⟨103, 1103⟩⟩) none :
          Outcome Nat String Nat Nat).attached :=
  accept_leaks_no_connection (demoEnv 4) 4 0 4
    (Outcome.returned (NetConn.wrapped ⟨3, ⟨103, 1103⟩⟩) none)
    [demoBlock0, demoBlock1, demoBlock2, demoBlock3] (by rfl)

end Claims

/-! ### The claim about listener construction -/

section FactoryClaims

variable {σ UL TL Lg Trk UAddr TAddr Err : Type}

/-- C9: listener construction is all-or-nothing, for `listenUnix` and for
`listenTCP` alike. If the raw listener constructor fails with `e`, the result
is a nil `Listener` with `e`, and `NewTracker` is not called. If the raw
listener is created and `NewTracker` fails with `e`, the raw listener is
closed once and the result is a nil `Listener` with `e`. If both succeed, the
result is the `Listener` holding that raw listener, that tracker and the
logger of the factory, with a nil error, and the raw listener is not closed. -/
theorem listener_construction_all_or_nothing
    (lf : ListenerFactory σ UL TL Lg Trk UAddr TAddr Err)
    (unixClose : UL → σ → Option Err × σ) (tcpClose : TL → σ → Option Err × σ)
    (network : String) (ua : UAddr) (ta : TAddr) (s : σ) :
    (∀ e, (lf.NewUnixListener network ua s).1.2 = some e →
        listenUnix lf unixClose network ua s =
          ((none, some e), (lf.NewUnixListener network ua s).2,
            [FactoryEvent.newUnixListener network ua (lf.NewUnixListener network ua s).1.1
              (some e)]) ∧
        trackerCalls (listenUnix lf unixClose network ua s).2.2 = []) ∧
      (∀ e, (lf.NewUnixListener network ua s).1.2 = none →
        (lf.NewTracker lf.Log (lf.NewUnixListener network ua s).2).1.2 = some e →
        listenUnix lf unixClose network ua s =
          ((none, some e),
            (unixClose (lf.NewUnixListener network ua s).1.1
              (lf.NewTracker lf.Log (lf.NewUnixListener network ua s).2).2).2,
            [FactoryEvent.newUnixListener network ua (lf.NewUnixListener network ua s).1.1 none,
             FactoryEvent.newTracker lf.Log
               (lf.NewTracker lf.Log (lf.NewUnixListener network ua s).2).1.1 (some e),
             FactoryEvent.unixClose (lf.NewUnixListener network ua s).1.1]) ∧
        closedListeners (listenUnix lf unixClose network ua s).2.2 =
          [RawListener.unix (lf.NewUnixListener network ua s).1.1]) ∧
      ((lf.NewUnixListener network ua s).1.2 = none →
        (lf.NewTracker lf.Log (lf.NewUnixListener network ua s).2).1.2 = none →
        listenUnix lf unixClose network ua s =
          ((some ⟨RawListener.unix (lf.NewUnixListener network ua s).1.1, lf.Log,
              (lf.NewTracker lf.Log (lf.NewUnixListener network ua s).2).1.1⟩, none),
            (lf.NewTracker lf.Log (lf.NewUnixListener network ua s).2).2,
            [FactoryEvent.newUnixListener network ua (lf.NewUnixListener network ua s).1.1 none,
             FactoryEvent.newTracker lf.Log
               (lf.NewTracker lf.Log (lf.NewUnixListener network ua s).2).1.1 none]) ∧
        closedListeners (listenUnix lf unixClose network ua s).2.2 = []) ∧
      (∀ e, (lf.NewTCPListener network ta s).1.2 = some e →
        listenTCP lf tcpClose network ta s =
          ((none, some e), (lf.NewTCPListener network ta s).2,
            [FactoryEvent.newTCPListener network ta (lf.NewTCPListener network ta s).1.1
              (some e)]) ∧
        trackerCalls (listenTCP lf tcpClose network ta s).2.2 = []) ∧
      (∀ e, (lf.NewTCPListener network ta s).1.2 = none →
        (lf.NewTracker lf.Log (lf.NewTCPListener network ta s).2).1.2 = some e →
        listenTCP lf tcpClose network ta s =
          ((none, some e),
            (tcpClose (lf.NewTCPListener network ta s).1.1
              (lf.NewTracker lf.Log (lf.NewTCPListener network ta s).2).2).2,
            [FactoryEvent.newTCPListener network ta (lf.NewTCPListener network ta s).1.1 none,
             FactoryEvent.newTracker lf.Log
               (lf.NewTracker lf.Log (lf.NewTCPListener network ta s).2).1.1 (some e),
             FactoryEvent.tcpClose (lf.NewTCPListener network ta s).1.1]) ∧
        closedListeners (listenTCP lf tcpClose network ta s).2.2 =
          [RawListener.tcp (lf.NewTCPListener network ta s).1.1]) ∧
      ((lf.NewTCPListener network ta s).1.2 = none →
        (lf.NewTracker lf.Log (lf.NewTCPListener network ta s).2).1.2 = none →
        listenTCP lf tcpClose network ta s =
          ((some ⟨RawListener.tcp (lf.NewTCPListener network ta s).1.1, lf.Log,
              (lf.NewTracker lf.Log (lf.NewTCPListener network ta s).2).1.1⟩, none),
            (lf.NewTracker lf.Log (lf.NewTCPListener network ta s).2).2,
            [FactoryEvent.newTCPListener network ta (lf.NewTCPListener network ta s).1.1 none,
             FactoryEvent.newTracker lf.Log
               (lf.NewTracker lf.Log (lf.NewTCPListener network ta s).2).1.1 none]) ∧
        closedListeners (listenTCP lf tcpClose network ta s).2.2 = []) := by
  refine ⟨?_, ?_, ?_, ?_, ?_, ?_⟩
  · intro e h
    simp [listenUnix, h, trackerCalls]
  · intro e h ht
    simp [listenUnix, h, ht, closedListeners]
  · intro h ht
    simp [listenUnix, h, ht, closedListeners]
  · intro e h
    simp [listenTCP, h, trackerCalls]
  · intro e h ht
    simp [listenTCP, h, ht, closedListeners]
  · intro h ht
    simp [listenTCP, h, ht, closedListeners]

/-- Witness for C9: in the concrete world binding `"bad"` fails before any
tracker is made, a `unix` listener bound in world state `3` is closed again
because the tracker cannot be created, and a `tcp` listener bound in world
state `0` is returned with its tracker and the logger of the factory. -/
theorem listener_construction_all_or_nothing_witness :
    (listenUnix demoFactory demoClose "bad" 5 0 =
        ((none, some "bind failed"), 1,
          [FactoryEvent.newUnixListener "bad" 5 5 (some "bind failed")]) ∧
      trackerCalls (listenUnix demoFactory demoClose "bad" 5 0).2.2 = []) ∧
    (listenUnix demoFactory demoClose "unix" 5 3 =
        ((none, some "no tracker"), 6,
          [FactoryEvent.newUnixListener "unix" 5 5 none,
           FactoryEvent.newTracker "logger" 7 (some "no tracker"),
           FactoryEvent.unixClose 5]) ∧
      closedListeners (listenUnix demoFactory demoClose "unix" 5 3).2.2 =
        [RawListener.unix 5]) ∧
    (listenTCP demoFactory demoClose "tcp" 5 0 =
        ((some ⟨RawListener.tcp 6, "logger", 7⟩, none), 2,
          [FactoryEvent.newTCPListener "tcp" 5 6 none,
           FactoryEvent.newTracker "logger" 7 none]) ∧
      closedListeners (listenTCP demoFactory demoClose "tcp" 5 0).2.2 = []) :=
  ⟨(listener_construction_all_or_nothing demoFactory demoClose demoClose "bad" 5 5 0).1
      "bind failed" (by rfl),
   (listener_construction_all_or_nothing demoFactory demoClose demoClose "unix" 5 5 3).2.1
      "no tracker" (by rfl) (by rfl),
   (listener_construction_all_or_nothing demoFactory demoClose demoClose "tcp" 5 5 0).2.2.2.2.2
      (by rfl) (by rfl)⟩

end FactoryClaims

end Peertracker
